import Mathlib

/-!
Verification of the openobserve-jaeger trace translation engine.

This file gives a shallow embedding of the engine's core functions
(`internal/jaeger_service/jaeger_service.go` and
`internal/transport/http/query_parser.go`) and proves properties of the
embedded definitions.

Modelling conventions:
  * Go `map[string]interface{}` rows become association lists
    (`OORecord`); Go map iteration order is nondeterministic, the list
    order is a deterministic stand-in (no proved property depends on the
    iteration order).
  * Loosely-typed values (`interface{}`) become `OOVal`; the `spf13/cast`
    coercions used by the source are embedded as `castToString`,
    `castToInt`, `castToUint64`, `castToUint32`.
  * Machine integers (`int64`, `time.Duration` in nanoseconds) become
    `Int`; the unsigned casts clamp negatives to 0 exactly as
    `cast.ToUint64E`/`ToUint32E` do (they return an error, swallowed by
    `cast.ToUint64`, and the zero value).
  * Go's truncated `/` and `%` on int64 are `goQuot`/`goRem`
    (`Int.tdiv`/`Int.tmod`).
  * Network calls (`resty` via `OpenObserveService.Search`) are abstracted
    into an explicit backend-outcome argument of type
    `Except BackendErr OpenObserveResp`; the SQL text and search request a
    function would send are embedded as separate pure functions so that
    the issued requests are first-class values.
  * The base64 transport encoding of SQL (`base64.StdEncoding`) is a
    bijection applied at the transport boundary; requests here carry the
    SQL text itself.
-/

namespace OOJaeger

/-- A loosely-typed backend cell value (Go `interface{}` as decoded from
JSON): a string, an integer, or nil/absent. -/
inductive OOVal where
  | vstr (s : String)
  | vint (n : Int)
  | vnull
deriving DecidableEq, Repr

/-- One flat backend row: Go `map[string]interface{}` as an association
list from column name to value. -/
abbrev OORecord := List (String × OOVal)

/-- Go map read `oo[k]`: the value when the key is present, nil
otherwise. -/
def oolookup (oo : OORecord) (k : String) : OOVal :=
  (oo.lookup k).getD OOVal.vnull

/-- Digits of a decimal number folded to its value. -/
def digitsVal (l : List Char) : Int :=
  l.foldl (fun a c => a * 10 + ((c.toNat : Int) - 48)) 0

/-- `cast.ToInt64` on a string: parse an optionally signed decimal
integer, any failure yields 0 (cast swallows the error and returns the
zero value). -/
def decStringToInt (s : String) : Int :=
  match s.data with
  | '-' :: rest =>
    if rest ≠ [] ∧ rest.all Char.isDigit then -(digitsVal rest) else 0
  | ds =>
    if ds ≠ [] ∧ ds.all Char.isDigit then digitsVal ds else 0

/-- `cast.ToString`: strings pass through, integers are rendered in
decimal, nil becomes the empty string. -/
def castToString : OOVal → String
  | OOVal.vstr s => s
  | OOVal.vint n => toString n
  | OOVal.vnull => ""

/-- `cast.ToInt64` / `cast.ToInt`: integers pass through, strings are
parsed, nil (and unparsable strings) become 0. -/
def castToInt : OOVal → Int
  | OOVal.vstr s => decStringToInt s
  | OOVal.vint n => n
  | OOVal.vnull => 0

/-- `cast.ToUint64` on an int64: negative values error and the swallowed
error leaves the zero value. -/
def castToUint64 (n : Int) : Int :=
  if n < 0 then 0 else n

/-- `cast.ToUint32` on an integer value: negative values become 0, the
rest is taken modulo 2^32 (the machine conversion). -/
def castToUint32 (n : Int) : Int :=
  if n < 0 then 0 else Int.emod n 4294967296

/-- Go's truncated integer division (`/` on int64). -/
def goQuot (a b : Int) : Int := Int.tdiv a b

/-- Go's truncated integer remainder (`%` on int64). -/
def goRem (a b : Int) : Int := Int.tmod a b

/-- `time.Unix(sec, nsec).UnixMicro()`: `time.Unix` normalizes `nsec`
into [0, 1e9) adjusting `sec` (mathematical floor division on the total
nanosecond count), and `UnixMicro` is `sec*1e6 + nsec/1e3`. -/
def timeUnixUnixMicro (sec nsec : Int) : Int :=
  let total := sec * 1000000000 + nsec
  (total / 1000000000) * 1000000 + (total % 1000000000) / 1000

/-- `time.Unix(sec, nsec).UnixMilli()`, analogous to `UnixMicro`. -/
def timeUnixUnixMilli (sec nsec : Int) : Int :=
  let total := sec * 1000000000 + nsec
  (total / 1000000000) * 1000 + (total % 1000000000) / 1000000

/-- The fixed column names of the flat span schema
(`DbmodelSpanFixedKey`). -/
structure DbmodelSpanFixedKey where
  ServiceName : String
  StartTime : String
  EndTime : String
  Timestamp : String
  TraceID : String
  SpanID : String
  Duration : String
  Flags : String
  OperationName : String
  SpanKind : String
  SpanStatus : String
  Error : String
  ReferenceParentSpanId : String
  ReferenceParentTraceId : String
  ReferenceRefType : String
  Events : String

/-- The `OOSpanFixedKey` value of the source. -/
def OOSpanFixedKey : DbmodelSpanFixedKey where
  ServiceName := "service_name"
  StartTime := "start_time"
  EndTime := "end_time"
  Timestamp := "_timestamp"
  TraceID := "trace_id"
  SpanID := "span_id"
  Duration := "duration"
  Flags := "flags"
  OperationName := "operation_name"
  SpanKind := "span_kind"
  SpanStatus := "span_status"
  Error := "error"
  ReferenceParentSpanId := "reference_parent_span_id"
  ReferenceParentTraceId := "reference_parent_trace_id"
  ReferenceRefType := "reference_ref_type"
  Events := "events"

/-- `DbModelProcessTagsRulesReg.MatchString`: the source compiles the
regular expression `"" + ""`, i.e. the empty pattern, and Go's empty
regular expression matches the empty substring at position 0 of every
string, so `MatchString` is constantly `true`. -/
def DbModelProcessTagsRulesReg_MatchString (_k : String) : Bool := true

/-- `dbmodel.KeyValue`: a tag. The `value` field is `interface{}` in the
source; synthesized tags store strings. -/
structure DbKeyValue where
  key : String
  type : String
  value : OOVal
deriving DecidableEq, Repr

/-- `dbmodel.Log`: one reconstructed span log. -/
structure DbLog where
  timestamp : Int
  fields : List DbKeyValue
deriving DecidableEq, Repr

/-- `dbmodel.Reference`: a reconstructed span reference. -/
structure DbReference where
  refType : String
  traceID : String
  spanID : String
deriving DecidableEq, Repr

/-- ASCII uppercase of a character (`strings.ToUpper` restricted to the
ASCII inputs the reference-type column carries). -/
def asciiUpperChar (c : Char) : Char :=
  if 'a' ≤ c ∧ c ≤ 'z' then Char.ofNat (c.toNat - 32) else c

/-- `strings.ToUpper` (ASCII fragment). -/
def asciiToUpper (s : String) : String :=
  String.mk (s.data.map asciiUpperChar)

/-- `trimSpanFixedKey`: drop the nine fixed columns consumed by the core
span fields; everything else (including `span_kind`, `span_status`,
`events` and the reference columns) is kept. -/
def trimSpanFixedKey (oo : OORecord) : OORecord :=
  if oo.length = 0 then oo
  else
    oo.filter (fun kv =>
      ¬ (kv.1 = OOSpanFixedKey.ServiceName ∨
         kv.1 = OOSpanFixedKey.StartTime ∨
         kv.1 = OOSpanFixedKey.EndTime ∨
         kv.1 = OOSpanFixedKey.Timestamp ∨
         kv.1 = OOSpanFixedKey.TraceID ∨
         kv.1 = OOSpanFixedKey.SpanID ∨
         kv.1 = OOSpanFixedKey.Duration ∨
         kv.1 = OOSpanFixedKey.Flags ∨
         kv.1 = OOSpanFixedKey.OperationName))

/-- `collectOOReferences`: an empty parent-span id yields no reference;
otherwise exactly one reference at the parent trace/span pair, with the
reference-type column uppercased and normalized ("CHILDOF" to "CHILD_OF",
"FOLLOWS_FROM" kept, anything else defaulted to "CHILD_OF"). -/
def collectOOReferences (oo : OORecord) : List DbReference :=
  if (castToString (oolookup oo OOSpanFixedKey.ReferenceParentSpanId)).length = 0 then
    []
  else
    let rt0 := asciiToUpper (castToString (oolookup oo OOSpanFixedKey.ReferenceRefType))
    let rt :=
      if rt0 = "CHILDOF" then "CHILD_OF"
      else if rt0 = "FOLLOWS_FROM" then "FOLLOWS_FROM"
      else "CHILD_OF"
    [{ refType := rt
       traceID := castToString (oolookup oo OOSpanFixedKey.ReferenceParentTraceId)
       spanID := castToString (oolookup oo OOSpanFixedKey.ReferenceParentSpanId) }]

/-- `trace.SpanKind` rendering in `collectOOTags`: the fixed enumeration,
out-of-range values leave the empty string. -/
def spanKindValue (kind : Int) : String :=
  if kind = 0 then "unspecified"
  else if kind = 1 then "internal"
  else if kind = 2 then "server"
  else if kind = 3 then "client"
  else if kind = 4 then "producer"
  else if kind = 5 then "consumer"
  else ""

/-- `collectOOTags`: `span_kind` becomes a synthesized `span.kind` tag,
`span_status` becomes `otel.status_code` (plus an `error=true` tag when
the status is "ERROR"), `events` is skipped, and any other column becomes
a plain tag only when the process-tag regular expression does NOT match
its name. -/
def collectOOTags : OORecord → List DbKeyValue
  | [] => []
  | kv :: rest =>
    (if kv.1 = OOSpanFixedKey.SpanKind then
      [{ key := "span.kind", type := "string"
         value := OOVal.vstr (spanKindValue (castToInt kv.2)) }]
     else if kv.1 = OOSpanFixedKey.SpanStatus then
      { key := "otel.status_code", type := "string"
        value := OOVal.vstr (castToString kv.2) } ::
      (if castToString kv.2 = "ERROR" then
        [{ key := "error", type := "bool", value := OOVal.vstr "true" }]
       else [])
     else if kv.1 = OOSpanFixedKey.Events then []
     else if ¬ (DbModelProcessTagsRulesReg_MatchString kv.1 = true) then
      [{ key := kv.1, type := "string", value := kv.2 }]
     else []) ++ collectOOTags rest

/-- `collectOOProcessTags`: every column whose name the process-tag
regular expression matches becomes a process-level tag. -/
def collectOOProcessTags : OORecord → List DbKeyValue
  | [] => []
  | kv :: rest =>
    (if DbModelProcessTagsRulesReg_MatchString kv.1 = true then
      [{ key := kv.1, type := "string", value := kv.2 }]
     else []) ++ collectOOProcessTags rest

/-- JSON whitespace skipped between tokens. -/
def jsonSkipWs : List Char → List Char
  | [] => []
  | c :: cs =>
    if c = ' ' ∨ c = '\t' ∨ c = '\n' ∨ c = '\r' then jsonSkipWs cs else c :: cs

/-- The body of a JSON string after its opening quote: the characters up
to the closing quote. Escape sequences are outside the fragment the span
exporter emits and make the parse fail (`json.Unmarshal` failure leaves
the log list empty either way only for genuinely malformed data; this
restriction is noted, no claim exercises it). -/
def parseJStringChars : List Char → Option (List Char × List Char)
  | [] => none
  | c :: cs =>
    if c = '"' then some ([], cs)
    else if c = '\\' then none
    else
      match parseJStringChars cs with
      | some (s, r) => some (c :: s, r)
      | none => none

/-- A JSON integer (optional minus sign, decimal digits). -/
def parseJNumber (cs : List Char) : Option (Int × List Char) :=
  match cs with
  | '-' :: rest =>
    let ds := rest.takeWhile Char.isDigit
    if ds = [] then none else some (-(digitsVal ds), rest.dropWhile Char.isDigit)
  | _ =>
    let ds := cs.takeWhile Char.isDigit
    if ds = [] then none else some (digitsVal ds, cs.dropWhile Char.isDigit)

/-- A JSON scalar: a string or an integer (the value shapes of the
serialized event objects). -/
def parseJScalar (cs : List Char) : Option (OOVal × List Char) :=
  match cs with
  | '"' :: rest =>
    (parseJStringChars rest).map (fun p => (OOVal.vstr (String.mk p.1), p.2))
  | _ => (parseJNumber cs).map (fun p => (OOVal.vint p.1, p.2))

/-- The members of a JSON object after its opening brace (at least one
member), up to and including the closing brace. -/
def parseJPairs : Nat → List Char → Option (List (String × OOVal) × List Char)
  | 0, _ => none
  | Nat.succ n, cs =>
    match jsonSkipWs cs with
    | '"' :: rest =>
      match parseJStringChars rest with
      | none => none
      | some (k, r1) =>
        match jsonSkipWs r1 with
        | ':' :: r2 =>
          match parseJScalar (jsonSkipWs r2) with
          | none => none
          | some (v, r3) =>
            match jsonSkipWs r3 with
            | ',' :: r4 =>
              match parseJPairs n r4 with
              | some (ps, r5) => some ((String.mk k, v) :: ps, r5)
              | none => none
            | c :: r4 =>
              if c = '}' then some ([(String.mk k, v)], r4) else none
            | [] => none
        | _ => none
    | _ => none

/-- One JSON object (possibly empty). -/
def parseJObject (fuel : Nat) (cs : List Char) : Option (OORecord × List Char) :=
  match jsonSkipWs cs with
  | c :: rest =>
    if c = '{' then
      match jsonSkipWs rest with
      | c2 :: rest2 =>
        if c2 = '}' then some ([], rest2)
        else parseJPairs fuel (c2 :: rest2)
      | [] => none
    else none
  | [] => none

/-- The objects of a JSON array after its opening bracket (at least one
object), up to and including the closing bracket. -/
def parseJObjects : Nat → List Char → Option (List OORecord × List Char)
  | 0, _ => none
  | Nat.succ n, cs =>
    match parseJObject n cs with
    | none => none
    | some (obj, r) =>
      match jsonSkipWs r with
      | ',' :: r2 =>
        match parseJObjects n r2 with
        | some (objs, r3) => some (obj :: objs, r3)
        | none => none
      | ']' :: r2 => some ([obj], r2)
      | _ => none

/-- `json.Unmarshal` of the `events` column into
`[]map[string]interface{}`: an array of flat objects with string or
integer values. `none` is the unmarshal-error case. -/
def parseEventsJson (s : String) : Option (List OORecord) :=
  match jsonSkipWs s.data with
  | '[' :: rest =>
    match jsonSkipWs rest with
    | ']' :: r2 => if jsonSkipWs r2 = [] then some [] else none
    | _ =>
      match parseJObjects (s.length + 1) rest with
      | some (objs, r) => if jsonSkipWs r = [] then some objs else none
      | none => none
  | _ => none

/-- One deserialized event object turned into a `dbmodel.Log`: the
`_timestamp` field (nanoseconds) goes through
`time.Unix(ts/1e9, ts%1e9).UnixMicro()` and `cast.ToUint64`; every other
field becomes a string-typed log field. -/
def eventToLog (v : OORecord) : DbLog :=
  let startTime := castToInt (oolookup v OOSpanFixedKey.Timestamp)
  { timestamp :=
      castToUint64 (timeUnixUnixMicro (goQuot startTime 1000000000)
        (goRem startTime 1000000000))
    fields :=
      (v.filter (fun kv => ¬ (kv.1 = OOSpanFixedKey.Timestamp))).map
        (fun kv =>
          { key := kv.1, type := "string"
            value := OOVal.vstr (castToString kv.2) }) }

/-- `collectOOLogs`: when an `events` column is present, unmarshal it and
convert each array element into one log entry; unmarshal failure (logged
in the source) leaves the log list empty. -/
def collectOOLogs (oo : OORecord) : List DbLog :=
  if oo.length = 0 then []
  else
    match oo.lookup OOSpanFixedKey.Events with
    | none => []
    | some events =>
      match parseEventsJson (castToString events) with
      | none => []
      | some evs => evs.map eventToLog

/-- `dbmodel.Span` as the converter fills it. -/
structure DbSpan where
  traceID : String
  spanID : String
  operationName : String
  processServiceName : String
  processTags : List DbKeyValue
  flags : Int
  parentSpanID : String
  startTime : Int
  startTimeMillis : Int
  duration : Int
  logs : List DbLog
  tags : List DbKeyValue
  references : List DbReference
deriving DecidableEq, Repr

/-- `transOOSpanToDbModelSpan`: one flat row into one `dbmodel.Span`.
Core fields come from the fixed columns; logs, tags, process tags and
references are collected from the row with the nine consumed fixed
columns trimmed away. -/
def transOOSpanToDbModelSpan (oo : OORecord) : DbSpan :=
  let startTime := castToInt (oolookup oo OOSpanFixedKey.StartTime)
  let newoo := trimSpanFixedKey oo
  { traceID := castToString (oolookup oo OOSpanFixedKey.TraceID)
    spanID := castToString (oolookup oo OOSpanFixedKey.SpanID)
    operationName := castToString (oolookup oo OOSpanFixedKey.OperationName)
    processServiceName := castToString (oolookup oo OOSpanFixedKey.ServiceName)
    processTags := collectOOProcessTags newoo
    flags := castToUint32 (castToInt (oolookup oo OOSpanFixedKey.Flags))
    parentSpanID := castToString (oolookup oo OOSpanFixedKey.ReferenceParentSpanId)
    startTime :=
      castToUint64 (timeUnixUnixMicro (goQuot startTime 1000000000)
        (goRem startTime 1000000000))
    startTimeMillis :=
      castToUint64 (timeUnixUnixMilli (goQuot startTime 1000000000)
        (goRem startTime 1000000000))
    duration := castToUint64 (castToInt (oolookup oo OOSpanFixedKey.Duration))
    logs := collectOOLogs newoo
    tags := collectOOTags newoo
    references := collectOOReferences newoo }

/-- A Go `time.Time` reduced to what the engine reads from it: `none` is
the zero time (`IsZero`), `some m` a wall-clock instant at `m`
microseconds since the Unix epoch. -/
abbrev GoTime := Option Int

/-- `time.Time.UnixMicro`. The zero time's value is the constant Go
returns for January 1 of year 1. -/
def goTimeUnixMicro : GoTime → Int
  | none => -62135596800000000
  | some m => m

/-- `a.Sub(b)` in nanoseconds, for the non-zero instants the validator
compares. -/
def goTimeSubNanos (a b : GoTime) : Int :=
  (goTimeUnixMicro a - goTimeUnixMicro b) * 1000

/-- `TraceQueryParameters`. Durations are `time.Duration` nanosecond
counts; `Tags` is the Go map as an association list. -/
structure TraceQueryParameters where
  ServiceName : List String
  OperationName : List String
  Tags : List (String × String)
  StartTimeMin : GoTime
  StartTimeMax : GoTime
  DurationMin : Int
  DurationMax : Int
  NumTraces : Int
  Version : String
  SkipWal : Bool
  SearchType : String
deriving DecidableEq, Repr

/-- The stream names of `openobserve_service`. -/
def SearchTraceDefaultStream : String := "default"

/-- The metadata trace-list stream name. -/
def SearchTraceListStream : String := "trace_list_index"

/-- The background search-type constant. -/
def BackgroundSearchType : String := "reports"

/-- The interactive search-type constant. -/
def UiSearchType : String := "ui"

/-- Which backend API `buildSQL` selected (`TraceAPI` is the full span
store, `MetadataAPI` the pre-aggregated metadata index). -/
inductive StreamApi where
  | traceAPI
  | metadataAPI
deriving DecidableEq, Repr

/-- `buildSQLCond`: the WHERE fragments of a trace query, in the source's
append order: service clause (equality for one name, `IN (...)` for
several), operation-name `IN (...)`, duration bounds in microseconds,
then the tag equalities (the reserved `error` tag becoming a
`span_status='ERROR'` equality when its value is "true", and dropped
otherwise). -/
def buildSQLCond (q : TraceQueryParameters) : List String :=
  let cond : List String := []
  let cond :=
    if q.ServiceName.length = 1 then
      cond ++ ["service_name ='" ++ q.ServiceName.headD "" ++ "'"]
    else if 1 < q.ServiceName.length then
      cond ++ ["service_name IN('" ++ String.intercalate "','" q.ServiceName ++ "')"]
    else cond
  let cond :=
    if 0 < q.OperationName.length then
      cond ++ ["operation_name IN('" ++ String.intercalate "','" q.OperationName ++ "')"]
    else cond
  let cond :=
    if 0 < q.DurationMin then
      cond ++ ["duration >= " ++ toString (goQuot q.DurationMin 1000)]
    else cond
  let cond :=
    if 0 < q.DurationMax then
      cond ++ ["duration <= " ++ toString (goQuot q.DurationMax 1000)]
    else cond
  let cond :=
    if 0 < q.Tags.length then
      let tags := q.Tags.filterMap (fun kv =>
        if kv.1 = OOSpanFixedKey.Error then
          (if kv.2 = "true" then some "span_status='ERROR'" else none)
        else some (kv.1 ++ "='" ++ kv.2 ++ "'"))
      if 0 < tags.length then
        cond ++ ["(" ++ String.intercalate " AND " tags ++ ")"]
      else cond
    else cond
  cond

/-- `buildSQL`: when the stream argument is empty or the query carries a
tag predicate, an operation-name predicate, or a positive duration bound,
the SQL targets the full span store (`default`) selecting `trace_id` with
`MIN(start_time)` and the source selector is `TraceAPI`; otherwise the
SQL projects the given fields from the given stream and the selector is
`MetadataAPI`. Conditions are ANDed into a WHERE clause when present, a
`GROUP BY trace_id ORDER BY _timestamp DESC` is always appended, and a
`LIMIT` when the result-count limit is positive. -/
def buildSQL (fileds : String) (q : TraceQueryParameters) (stream : String) :
    String × StreamApi :=
  let p :=
    if stream.length = 0 ∨ 0 < q.Tags.length ∨ 0 < q.OperationName.length ∨
        0 < q.DurationMax ∨ 0 < q.DurationMin then
      ("SELECT trace_id, MIN(start_time) AS _timestamp FROM " ++ SearchTraceDefaultStream,
       StreamApi.traceAPI)
    else
      ("SELECT " ++ fileds ++ " FROM " ++ stream, StreamApi.metadataAPI)
  let cond := buildSQLCond q
  let sql :=
    if 0 < cond.length then p.1 ++ " WHERE " ++ String.intercalate " AND " cond
    else p.1
  let sql := sql ++ " GROUP BY trace_id ORDER BY _timestamp DESC "
  let sql := if 0 < q.NumTraces then sql ++ " LIMIT " ++ toString q.NumTraces else sql
  (sql, p.2)

/-- `OOSearchQueryQuery`: the inner search request. `sql` carries the SQL
text (base64-encoded only at the transport boundary). -/
structure OOSearchQueryQuery where
  sqlMode : String
  startTime : Int
  endTime : Int
  fromOffset : Int
  size : Int
  sql : String
  skipWal : Bool
deriving DecidableEq, Repr

/-- `OOSearchQuery`: one backend search request. -/
structure OOSearchQuery where
  query : OOSearchQueryQuery
  searchType : String
deriving DecidableEq, Repr

/-- `OpenObserveResp` reduced to the fields the engine reads. -/
structure OpenObserveResp where
  hits : List OORecord
  total : Int
deriving Repr

/-- A failed backend call: a typed `*errors.Error` carrying a code, or
any other Go error carrying only a message. -/
inductive BackendErr where
  | typed (code : Int) (msg : String)
  | generic (msg : String)
deriving DecidableEq, Repr

/-- `err.Error()` of a backend failure (a typed error's message is its
`Message` field). -/
def BackendErr.message : BackendErr → String
  | BackendErr.typed _ m => m
  | BackendErr.generic m => m

/-- `JaegerStructuredError`. -/
structure JaegerStructuredError where
  code : Int
  msg : String
  traceID : String
deriving DecidableEq, Repr

/-- The `Data` payload of a response: the initial empty string slice, a
trace list, or the nil interface `GetTrace` starts from. The trace type
is a parameter: span assembly below the envelope is universally
quantified in the envelope theorems. -/
inductive JaegerData (τ : Type) where
  | strs (l : List String)
  | traces (l : List τ)
  | notSet
deriving DecidableEq

/-- `JaegerStructuredResponse`. -/
structure JaegerStructuredResponse (τ : Type) where
  data : JaegerData τ
  total : Int
  limit : Int
  offset : Int
  errors : List JaegerStructuredError
deriving DecidableEq

/-- `JaegerStructuredResponse.StatusCode`: the first error's code when
any error exists, else 200. -/
def JaegerStructuredResponse.StatusCode {τ : Type} (j : JaegerStructuredResponse τ) : Int :=
  if 0 < j.errors.length then (j.errors.headD ⟨0, "", ""⟩).code else 200

/-- The identifier-extraction loop of `findTracesIds`: append the
`trace_id` value of every row that has the column, in row order. -/
def extractTraceIds (hits : List OORecord) : List String :=
  hits.foldl
    (fun acc t =>
      match t.lookup "trace_id" with
      | some id => acc ++ [castToString id]
      | none => acc)
    []

/-- The Phase 1 search request `findTracesIds` issues, and the API it is
sent to: the trace-list SQL from `buildSQL` over the query's primary
window, with the v3/v4 version switches on skip-WAL and search type. -/
def findTracesIdsQuery (q : TraceQueryParameters) : OOSearchQuery × StreamApi :=
  let r := buildSQL "trace_id, MIN(_timestamp) AS _timestamp" q SearchTraceListStream
  let qq : OOSearchQuery :=
    { query :=
        { sqlMode := "full"
          startTime := goTimeUnixMicro q.StartTimeMin
          endTime := goTimeUnixMicro q.StartTimeMax
          fromOffset := 0
          size := 0
          sql := r.1
          skipWal := false }
      searchType := "" }
  let qq :=
    if q.Version = "v3" then
      { qq with query := { qq.query with skipWal := true }, searchType := BackgroundSearchType }
    else qq
  let qq :=
    if q.Version = "v4" then { qq with searchType := BackgroundSearchType } else qq
  (qq, r.2)

/-- The response handling of `findTracesIds`, with the network call
abstracted into its outcome: a typed backend error keeps its code, any
other error maps to 500, zero returned rows map to a 404 "trace not
found" error, and otherwise the trace identifiers are extracted from the
rows in return order. The Go pair (ids, structured errors) is returned
as-is. -/
def findTracesIds (outcome : Except BackendErr OpenObserveResp) :
    List String × List JaegerStructuredError :=
  match outcome with
  | Except.error (BackendErr.typed c m) => ([], [{ code := c, msg := m, traceID := "" }])
  | Except.error (BackendErr.generic m) => ([], [{ code := 500, msg := m, traceID := "" }])
  | Except.ok resp =>
    if resp.hits.length = 0 then
      ([], [{ code := 404, msg := "trace not found", traceID := "" }])
    else (extractTraceIds resp.hits, [])

/-- The Phase 2 SQL of `findTracesByIds`: every column of the full span
store for a literal `trace_id IN (...)` list, ordered by start time
descending. -/
def findTracesByIdsSql (traceids : List String) : String :=
  "SELECT * FROM default WHERE trace_id IN('" ++ String.intercalate "','" traceids ++
    "') ORDER BY start_time DESC"

/-- The backend search requests `findTracesByIds` issues: none for an
empty identifier list, otherwise exactly one batched request carrying the
`IN (...)` SQL over the caller's window, size, skip-WAL flag and search
type. -/
def findTracesByIdsRequests (q : TraceQueryParameters) (traceids : List String) :
    List OOSearchQuery :=
  if traceids.length ≤ 0 then []
  else
    [{ query :=
         { sqlMode := "full"
           startTime := goTimeUnixMicro q.StartTimeMin
           endTime := goTimeUnixMicro q.StartTimeMax
           fromOffset := 0
           size := q.NumTraces
           sql := findTracesByIdsSql traceids
           skipWal := q.SkipWal }
       searchType := q.SearchType }]

/-- The `splitOOResp` grouping of `searchTracesByIds`: partition rows by
their `trace_id` value, dropping rows whose trace id is empty; groups are
kept in first-appearance order (a deterministic stand-in for Go's map, no
claim depends on group order). -/
def addToGroups (acc : List (String × List OORecord)) (tid : String) (span : OORecord) :
    List (String × List OORecord) :=
  match acc with
  | [] => [(tid, [span])]
  | (k, v) :: rest =>
    if k = tid then (k, v ++ [span]) :: rest else (k, v) :: addToGroups rest tid span

/-- Rows grouped by trace id, empty ids dropped. -/
def groupByTraceId (hits : List OORecord) : List (String × List OORecord) :=
  hits.foldl
    (fun acc span =>
      let tid := castToString (oolookup span "trace_id")
      if tid = "" then acc else addToGroups acc tid span)
    []

/-- The response handling of `searchTracesByIds`: any backend error maps
to a 500 error, zero rows map to a 404 "trace not found" error, and
otherwise the rows are grouped per trace id and each group is assembled
into one UI trace (assembly — `transOOToJaegerUI`, i.e. span conversion,
the adjuster pipeline and the UI conversion — is the `assemble`
parameter; it may also yield a non-fatal structured error that is
collected while the trace is still appended, as in the source). -/
def searchTracesByIds {τ : Type}
    (assemble : String → OpenObserveResp → τ × Option JaegerStructuredError)
    (outcome : Except BackendErr OpenObserveResp) :
    List τ × List JaegerStructuredError :=
  match outcome with
  | Except.error e => ([], [{ code := 500, msg := e.message, traceID := "" }])
  | Except.ok resp =>
    if resp.hits.length = 0 then
      ([], [{ code := 404, msg := "trace not found", traceID := "" }])
    else
      let groups := groupByTraceId resp.hits
      let pairs := groups.map (fun g => assemble g.1 { hits := g.2, total := 0 })
      (pairs.map (fun p => p.1), pairs.filterMap (fun p => p.2))

/-- `findTracesByIds`: an empty identifier list short-circuits to the nil
pair; otherwise one batched `searchTracesByIds` call is made. -/
def findTracesByIds {τ : Type}
    (assemble : String → OpenObserveResp → τ × Option JaegerStructuredError)
    (outcome : Except BackendErr OpenObserveResp) (traceids : List String) :
    List τ × List JaegerStructuredError :=
  if traceids.length ≤ 0 then ([], [])
  else searchTracesByIds assemble outcome

/-- `FindTraces`: Phase 1 resolves trace identifiers (its 404 — zero
matches — returns the initial empty-success envelope, other errors are
surfaced); Phase 2 fetches and assembles the spans under a fresh query
carrying the configured span size (its 404 likewise returns the empty
success); on success the envelope carries the traces and their count.
The two network calls are abstracted into the `phase1`/`phase2`
outcomes. -/
def FindTraces {τ : Type}
    (assemble : String → OpenObserveResp → τ × Option JaegerStructuredError)
    (phase1 phase2 : Except BackendErr OpenObserveResp)
    (_q : TraceQueryParameters) : JaegerStructuredResponse τ :=
  let init : JaegerStructuredResponse τ :=
    { data := JaegerData.strs [], total := 0, limit := 0, offset := 0, errors := [] }
  let r1 := findTracesIds phase1
  if 0 < r1.2.length then
    if (r1.2.headD ⟨0, "", ""⟩).code = 404 then init
    else { init with errors := r1.2 }
  else
    let r2 := findTracesByIds assemble phase2 r1.1
    if 0 < r2.2.length then
      if (r2.2.headD ⟨0, "", ""⟩).code = 404 then init
      else { init with errors := r2.2 }
    else { init with data := JaegerData.traces r2.1, total := r2.1.length }

/-- The span-fetch SQL of `GetTrace` (one trace id, ascending order). -/
def getTraceSql (traceID : String) : String :=
  "SELECT * FROM default WHERE trace_id = '" ++ traceID ++ "' ORDER BY start_time"

/-- `GetTrace`: fetch one trace by identifier. A backend error maps to a
500 error carrying the requested trace id; zero rows map to a 404 "trace
not found" error carrying the requested trace id; otherwise the rows are
assembled into one trace (plus an optional non-fatal assembly error). -/
def GetTrace {τ : Type}
    (assemble : String → OpenObserveResp → τ × Option JaegerStructuredError)
    (outcome : Except BackendErr OpenObserveResp) (qTraceID : String) :
    JaegerStructuredResponse τ :=
  let init : JaegerStructuredResponse τ :=
    { data := JaegerData.notSet, total := 0, limit := 0, offset := 0, errors := [] }
  match outcome with
  | Except.error e =>
    { init with errors := [{ code := 500, msg := e.message, traceID := qTraceID }] }
  | Except.ok resp =>
    if resp.hits.length = 0 then
      { init with errors := [{ code := 404, msg := "trace not found", traceID := qTraceID }] }
    else
      let p := assemble qTraceID resp
      { init with
        data := JaegerData.traces [p.1]
        errors := match p.2 with | some e => [e] | none => [] }

/-- The parsed query the HTTP layer validates: the engine parameters plus
the path-captured trace identifiers. -/
structure HttpTraceQueryParameters where
  params : TraceQueryParameters
  traceIDs : List String
deriving DecidableEq, Repr

/-- The validator's error strings. -/
def errMaxDurationGreaterThanMin : String :=
  "'maxDuration' should be greater than 'minDuration'"

/-- Error when no service name and no trace identifiers are given. -/
def errServiceParameterRequired : String := "parameter 'service' is required"

/-- Error when the start time is not before the end time. -/
def errStartTimeGreaterThanStartTimeMax : String :=
  "StartTime should not be greater than EndTime"

/-- Error when the window exceeds the ceiling. -/
def errTimeRangeTooWide : String := "time range should not be greater than 1 Hour"

/-- `validateTraceQuery`: reject when no trace id and no service name;
when both duration bounds are set (non-zero) with max below min; and when
both times are non-zero with a non-positive or too-wide window (the
ceiling is one hour plus five minutes in nanoseconds). -/
def validateTraceQuery (tq : HttpTraceQueryParameters) : Option String :=
  if tq.traceIDs.length = 0 ∧ tq.params.ServiceName.length = 0 then
    some errServiceParameterRequired
  else if tq.params.DurationMin ≠ 0 ∧ tq.params.DurationMax ≠ 0 ∧
      tq.params.DurationMax < tq.params.DurationMin then
    some errMaxDurationGreaterThanMin
  else if tq.params.StartTimeMin.isSome ∧ tq.params.StartTimeMax.isSome ∧
      goTimeSubNanos tq.params.StartTimeMax tq.params.StartTimeMin ≤ 0 then
    some errStartTimeGreaterThanStartTimeMax
  else if tq.params.StartTimeMin.isSome ∧ tq.params.StartTimeMax.isSome ∧
      3900000000000 < goTimeSubNanos tq.params.StartTimeMax tq.params.StartTimeMin then
    some errTimeRangeTooWide
  else none

/-- The 405-coded envelope the `SearchTraces` route returns when parsing
or validation fails (before any SQL is built or any backend is called). -/
def validationErrorResponse (τ : Type) (m : String) : JaegerStructuredResponse τ :=
  { data := JaegerData.strs [], total := 0, limit := 0, offset := 0
    errors := [{ code := 405, msg := m, traceID := "" }] }

/-- The `SearchTraces` route: a validation failure returns the 405
envelope without touching the engine; otherwise `FindTraces` runs. -/
def SearchTracesPipeline {τ : Type}
    (assemble : String → OpenObserveResp → τ × Option JaegerStructuredError)
    (phase1 phase2 : Except BackendErr OpenObserveResp)
    (tq : HttpTraceQueryParameters) : JaegerStructuredResponse τ :=
  match validateTraceQuery tq with
  | some m => validationErrorResponse τ m
  | none => FindTraces assemble phase1 phase2 tq.params

/-! Helper lemmas. -/

/-- A string has length 0 exactly when it is empty. -/
theorem string_length_eq_zero_iff (s : String) : s.length = 0 ↔ s = "" := by
  cases s with
  | mk l =>
    constructor
    · intro h
      have hl : l = [] := by simpa [String.length] using h
      exact congrArg String.mk hl
    · intro h
      have hl : l = [] := by
        have := congrArg String.data h
        simpa using this
      simp [String.length, hl]

/-- The source computes the `time.Unix` pair with Go's truncated division
and remainder, so the microsecond timestamp is the floor of the
nanosecond count divided by 1000. -/
theorem timeUnixUnixMicro_goQuotRem (t : Int) :
    timeUnixUnixMicro (goQuot t 1000000000) (goRem t 1000000000) = t / 1000 := by
  have h := Int.tdiv_add_tmod t 1000000000
  simp only [timeUnixUnixMicro, goQuot, goRem]
  omega

/-- The extraction loop of `findTracesIds` is the in-order `filterMap` of
the `trace_id` column over the rows. -/
theorem extractTraceIds_eq_filterMap (hits : List OORecord) :
    extractTraceIds hits =
      hits.filterMap (fun t => (t.lookup "trace_id").map castToString) := by
  have aux : ∀ (l : List OORecord) (acc : List String),
      l.foldl
        (fun acc t =>
          match t.lookup "trace_id" with
          | some id => acc ++ [castToString id]
          | none => acc) acc =
      acc ++ l.filterMap (fun t => (t.lookup "trace_id").map castToString) := by
    intro l
    induction l with
    | nil => intro acc; simp
    | cons hd tl ih =>
      intro acc
      cases hlk : hd.lookup "trace_id" with
      | none => simp [List.foldl, hlk, ih]
      | some id => simp [List.foldl, hlk, ih]
  simpa using aux hits []

/-- With the constantly-true process-tag pattern, the process-tag
collector maps every remaining column to a string-typed tag. -/
theorem collectOOProcessTags_eq_map (oo : OORecord) :
    collectOOProcessTags oo =
      oo.map (fun kv => { key := kv.1, type := "string", value := kv.2 }) := by
  induction oo with
  | nil => rfl
  | cons hd tl ih =>
    simp [collectOOProcessTags, DbModelProcessTagsRulesReg_MatchString, ih]

/-- Every tag the span-tag collector emits is one of the three
synthesized keys. -/
theorem collectOOTags_keys (oo : OORecord) :
    ∀ kv ∈ collectOOTags oo,
      kv.key = "span.kind" ∨ kv.key = "otel.status_code" ∨ kv.key = "error" := by
  induction oo with
  | nil => intro kv h; simp [collectOOTags] at h
  | cons hd tl ih =>
    intro kv h
    simp only [collectOOTags, List.mem_append] at h
    rcases h with h | h
    · rcases Decidable.em (hd.1 = OOSpanFixedKey.SpanKind) with h1 | h1
      · rw [if_pos h1, List.mem_singleton] at h
        subst h; exact Or.inl rfl
      · rw [if_neg h1] at h
        rcases Decidable.em (hd.1 = OOSpanFixedKey.SpanStatus) with h2 | h2
        · rw [if_pos h2, List.mem_cons] at h
          rcases h with h | h
          · subst h; exact Or.inr (Or.inl rfl)
          · rcases Decidable.em (castToString hd.2 = "ERROR") with h3 | h3
            · rw [if_pos h3, List.mem_singleton] at h
              subst h; exact Or.inr (Or.inr rfl)
            · rw [if_neg h3] at h
              simp at h
        · rw [if_neg h2] at h
          rcases Decidable.em (hd.1 = OOSpanFixedKey.Events) with h4 | h4
          · rw [if_pos h4] at h
            simp at h
          · rw [if_neg h4] at h
            rw [if_neg (by simp [DbModelProcessTagsRulesReg_MatchString])] at h
            simp at h
    · exact ih kv h

/-! Claim theorems. -/

/-- C1: when Phase 1 of `FindTraces` returns zero rows, the response is
the empty success envelope — empty data list, total 0, and an empty
errors list — for every assembly function, every Phase 2 outcome and
every query. -/
theorem FindTraces_phase1_zero_rows_empty_success {τ : Type}
    (assemble : String → OpenObserveResp → τ × Option JaegerStructuredError)
    (phase2 : Except BackendErr OpenObserveResp)
    (q : TraceQueryParameters) (total : Int) :
    FindTraces assemble (Except.ok { hits := [], total := total }) phase2 q =
      { data := JaegerData.strs [], total := 0, limit := 0, offset := 0, errors := [] } := by
  rfl

/-- C2: when the span fetch of `GetTrace` returns zero rows, the response
carries exactly one error, its code 404 and its trace id the requested
identifier. -/
theorem GetTrace_zero_rows_404 {τ : Type}
    (assemble : String → OpenObserveResp → τ × Option JaegerStructuredError)
    (traceID : String) (total : Int) :
    GetTrace assemble (Except.ok { hits := [], total := total }) traceID =
      { data := JaegerData.notSet, total := 0, limit := 0, offset := 0
        errors := [{ code := 404, msg := "trace not found", traceID := traceID }] } := by
  rfl

/-- Kernel-evaluable string suffix test (the standard `String.endsWith`
is defined by well-founded recursion and does not reduce). -/
def strEndsWith (s suffix : String) : Bool :=
  List.isSuffixOf suffix.data s.data

/-- Modelled from the spec's words, for comparison with the source: a SQL
text "ordered by start time ascending" ends in an `ORDER BY start_time`
clause with no direction (SQL defaults to ascending) or an explicit
`ASC`. -/
def sqlOrdersStartTimeAscending (s : String) : Bool :=
  strEndsWith s "ORDER BY start_time" || strEndsWith s "ORDER BY start_time ASC"

/-- C3 counterexample: at the identifier list `["abc123"]` the Phase 2
SQL the source builds orders by start time DESCENDING, not ascending as
the claim states. -/
theorem findTracesByIdsSql_descending_not_ascending :
    findTracesByIdsSql ["abc123"] =
      "SELECT * FROM default WHERE trace_id IN('abc123') ORDER BY start_time DESC"
    ∧ strEndsWith (findTracesByIdsSql ["abc123"]) " ORDER BY start_time DESC" = true
    ∧ sqlOrdersStartTimeAscending (findTracesByIdsSql ["abc123"]) = false := by
  refine ⟨by decide, by decide, by decide⟩

/-- C3 (amended): for every non-empty identifier list from Phase 1, Phase
2 issues exactly one backend request, whose SQL selects every column from
the full span store with a literal `trace_id IN (...)` listing all the
identifiers, ordered by start time DESCENDING. -/
theorem findTracesByIds_single_batched_call (q : TraceQueryParameters)
    (traceids : List String) (h : traceids ≠ []) :
    findTracesByIdsRequests q traceids =
      [{ query :=
           { sqlMode := "full"
             startTime := goTimeUnixMicro q.StartTimeMin
             endTime := goTimeUnixMicro q.StartTimeMax
             fromOffset := 0
             size := q.NumTraces
             sql := "SELECT * FROM default WHERE trace_id IN('" ++
               String.intercalate "','" traceids ++ "') ORDER BY start_time DESC"
             skipWal := q.SkipWal }
         searchType := q.SearchType }]
    ∧ (findTracesByIdsRequests q traceids).length = 1 := by
  have hpos : 0 < traceids.length := List.length_pos.mpr h
  have hlen : ¬ (traceids.length ≤ 0) := by omega
  constructor
  · simp [findTracesByIdsRequests, findTracesByIdsSql, hlen]
  · simp [findTracesByIdsRequests, hlen]

/-- A concrete query for witnesses. -/
def witnessPhase2Query : TraceQueryParameters :=
  { ServiceName := [], OperationName := [], Tags := [], StartTimeMin := none
    StartTimeMax := none, DurationMin := 0, DurationMax := 0, NumTraces := 20
    Version := "", SkipWal := false, SearchType := "ui" }

/-- C3 witness: the amended theorem at the concrete list `["a", "b"]`. -/
theorem findTracesByIds_single_batched_call_witness :
    findTracesByIdsRequests witnessPhase2Query ["a", "b"] =
      [{ query :=
           { sqlMode := "full"
             startTime := goTimeUnixMicro witnessPhase2Query.StartTimeMin
             endTime := goTimeUnixMicro witnessPhase2Query.StartTimeMax
             fromOffset := 0
             size := witnessPhase2Query.NumTraces
             sql := "SELECT * FROM default WHERE trace_id IN('" ++
               String.intercalate "','" ["a", "b"] ++ "') ORDER BY start_time DESC"
             skipWal := witnessPhase2Query.SkipWal }
         searchType := witnessPhase2Query.SearchType }]
    ∧ (findTracesByIdsRequests witnessPhase2Query ["a", "b"]).length = 1 :=
  findTracesByIds_single_batched_call witnessPhase2Query ["a", "b"] (by decide)

/-- The serialized event array of the spec's log scenario. -/
def scenarioEventsJson : String := "[\x7b\"_timestamp\":1000000000,\"msg\":\"ok\"\x7d]"

/-- The flat span record of the spec's log scenario. -/
def scenarioEventsRecord : OORecord := [("events", OOVal.vstr scenarioEventsJson)]

/-- C4 counterexample: the scenario record yields one log entry with ONE
field `msg = "ok"`, but its microsecond timestamp is 1000000 (10^9 ns =
10^6 us), not 1000 as the claim states. -/
theorem collectOOLogs_scenario_timestamp_is_1000000 :
    collectOOLogs scenarioEventsRecord =
      [{ timestamp := 1000000
         fields := [{ key := "msg", type := "string", value := OOVal.vstr "ok" }] }]
    ∧ (collectOOLogs scenarioEventsRecord).map DbLog.timestamp ≠ [1000] := by
  refine ⟨by decide, by decide⟩

/-- C4 (amended): each deserialized event becomes one log entry whose
timestamp is the nanosecond `_timestamp` field converted to microseconds
by floor division by 1000 (through `time.Unix(...).UnixMicro()` and the
unsigned cast) — so `1000000000` nanoseconds become `1000000`
microseconds, not 1000 — and whose field list is the event's fields
excluding the timestamp field itself, as string-valued log fields. -/
theorem collectOOLogs_nanos_to_micros (oo : OORecord) (v : OOVal) (evs : List OORecord)
    (hv : oo.lookup OOSpanFixedKey.Events = some v)
    (hp : parseEventsJson (castToString v) = some evs) :
    collectOOLogs oo = evs.map (fun e =>
      { timestamp := castToUint64 (castToInt (oolookup e OOSpanFixedKey.Timestamp) / 1000)
        fields :=
          (e.filter (fun kv => ¬ (kv.1 = OOSpanFixedKey.Timestamp))).map
            (fun kv =>
              { key := kv.1, type := "string"
                value := OOVal.vstr (castToString kv.2) }) }) := by
  have hne : ¬ (oo.length = 0) := by
    intro hlen
    rw [List.length_eq_zero] at hlen
    subst hlen
    simp [List.lookup] at hv
  unfold collectOOLogs
  rw [if_neg hne, hv]
  show (match parseEventsJson (castToString v) with
        | none => ([] : List DbLog)
        | some evs => evs.map eventToLog) = _
  rw [hp]
  show evs.map eventToLog = _
  apply List.map_congr_left
  intro e _
  simp [eventToLog, timeUnixUnixMicro_goQuotRem]

/-- C4 witness: the amended theorem at the scenario record. -/
theorem collectOOLogs_nanos_to_micros_witness :
    collectOOLogs scenarioEventsRecord =
      ([[("_timestamp", OOVal.vint 1000000000), ("msg", OOVal.vstr "ok")]] :
          List OORecord).map (fun e =>
        { timestamp := castToUint64 (castToInt (oolookup e OOSpanFixedKey.Timestamp) / 1000)
          fields :=
            (e.filter (fun kv => ¬ (kv.1 = OOSpanFixedKey.Timestamp))).map
              (fun kv =>
                { key := kv.1, type := "string"
                  value := OOVal.vstr (castToString kv.2) }) }) :=
  collectOOLogs_nanos_to_micros scenarioEventsRecord (OOVal.vstr scenarioEventsJson)
    [[("_timestamp", OOVal.vint 1000000000), ("msg", OOVal.vstr "ok")]]
    (by decide) (by decide)

/-- C6 counterexample: two rows with the same `trace_id` value yield the
list `["a", "a"]` — the extraction preserves order but does NOT
deduplicate (distinctness comes only from the `GROUP BY trace_id` of the
Phase 1 SQL). -/
theorem findTracesIds_does_not_dedup :
    (findTracesIds (Except.ok
        { hits := [[("trace_id", OOVal.vstr "a")], [("trace_id", OOVal.vstr "a")]]
          total := 2 })).1 = ["a", "a"]
    ∧ ¬ List.Nodup (findTracesIds (Except.ok
        { hits := [[("trace_id", OOVal.vstr "a")], [("trace_id", OOVal.vstr "a")]]
          total := 2 })).1 := by
  refine ⟨by decide, by decide⟩

/-- C6 (amended): for every Phase 1 result with at least one row, the
retriever returns, with no error, the list of `trace_id` values of the
rows that carry the column, in the backend's return order, without
deduplicating. -/
theorem findTracesIds_ordered_extraction (hits : List OORecord) (total : Int)
    (h : hits ≠ []) :
    findTracesIds (Except.ok { hits := hits, total := total }) =
      (hits.filterMap (fun t => (t.lookup "trace_id").map castToString), []) := by
  have hlen : ¬ (hits.length = 0) := by
    intro hlen
    exact h (List.length_eq_zero.mp hlen)
  have e : findTracesIds (Except.ok { hits := hits, total := total }) =
      if hits.length = 0 then
        ([], [{ code := 404, msg := "trace not found", traceID := "" }])
      else (extractTraceIds hits, []) := rfl
  rw [e, if_neg hlen, extractTraceIds_eq_filterMap]

/-- C6 witness: the amended theorem at two concrete rows (one of them
without a `trace_id` column). -/
theorem findTracesIds_ordered_extraction_witness :
    findTracesIds (Except.ok
        { hits := [[("trace_id", OOVal.vstr "b")], [("x", OOVal.vnull)]], total := 2 }) =
      (([[("trace_id", OOVal.vstr "b")], [("x", OOVal.vnull)]] :
          List OORecord).filterMap
        (fun t => (t.lookup "trace_id").map castToString), []) :=
  findTracesIds_ordered_extraction [[("trace_id", OOVal.vstr "b")], [("x", OOVal.vnull)]]
    2 (by decide)

/-- C5: `buildSQL` targets the full span store (selector `TraceAPI`, a
`SELECT trace_id, MIN(start_time)` projection over the `default` stream)
exactly when the stream argument is empty (no identifier-only fast path)
or the query has a tag predicate, an operation-name predicate, or a
positive duration bound; otherwise it projects the given fields from the
given metadata stream (selector `MetadataAPI`). -/
theorem buildSQL_source_selection (fileds stream : String) (q : TraceQueryParameters) :
    ((buildSQL fileds q stream).2 = StreamApi.traceAPI ↔
      (stream = "" ∨ q.Tags ≠ [] ∨ q.OperationName ≠ [] ∨
        0 < q.DurationMax ∨ 0 < q.DurationMin))
    ∧ ∃ tail,
      (buildSQL fileds q stream).1 =
        (if (buildSQL fileds q stream).2 = StreamApi.traceAPI then
          "SELECT trace_id, MIN(start_time) AS _timestamp FROM default"
         else "SELECT " ++ fileds ++ " FROM " ++ stream) ++ tail := by
  have hbridge : (stream.length = 0 ∨ 0 < q.Tags.length ∨ 0 < q.OperationName.length ∨
      0 < q.DurationMax ∨ 0 < q.DurationMin) ↔
      (stream = "" ∨ q.Tags ≠ [] ∨ q.OperationName ≠ [] ∨
        0 < q.DurationMax ∨ 0 < q.DurationMin) := by
    rw [string_length_eq_zero_iff, List.length_pos, List.length_pos]
  by_cases hc : stream.length = 0 ∨ 0 < q.Tags.length ∨ 0 < q.OperationName.length ∨
      0 < q.DurationMax ∨ 0 < q.DurationMin
  · have hapi : (buildSQL fileds q stream).2 = StreamApi.traceAPI := by
      simp only [buildSQL]
      rw [if_pos hc]
    refine ⟨by rw [hapi]; exact iff_of_true rfl (hbridge.mp hc), ?_⟩
    rw [if_pos hapi]
    have hd : ("SELECT trace_id, MIN(start_time) AS _timestamp FROM default" : String) =
        "SELECT trace_id, MIN(start_time) AS _timestamp FROM " ++ SearchTraceDefaultStream := rfl
    rw [hd]
    simp only [buildSQL]
    rw [if_pos hc]
    by_cases hw : 0 < (buildSQLCond q).length
    · rw [if_pos hw]
      by_cases hl : 0 < q.NumTraces
      · rw [if_pos hl]
        refine ⟨" WHERE " ++ (" AND ".intercalate (buildSQLCond q) ++
          (" GROUP BY trace_id ORDER BY _timestamp DESC " ++
            (" LIMIT " ++ toString q.NumTraces))), ?_⟩
        simp only [String.append_assoc]
      · rw [if_neg hl]
        refine ⟨" WHERE " ++ (" AND ".intercalate (buildSQLCond q) ++
          " GROUP BY trace_id ORDER BY _timestamp DESC "), ?_⟩
        simp only [String.append_assoc]
    · rw [if_neg hw]
      by_cases hl : 0 < q.NumTraces
      · rw [if_pos hl]
        refine ⟨" GROUP BY trace_id ORDER BY _timestamp DESC " ++
          (" LIMIT " ++ toString q.NumTraces), ?_⟩
        simp only [String.append_assoc]
      · rw [if_neg hl]
        exact ⟨" GROUP BY trace_id ORDER BY _timestamp DESC ", by
          simp only [String.append_assoc]⟩
  · have hapi : (buildSQL fileds q stream).2 = StreamApi.metadataAPI := by
      simp only [buildSQL]
      rw [if_neg hc]
    have hapi' : ¬ ((buildSQL fileds q stream).2 = StreamApi.traceAPI) := by
      rw [hapi]
      intro hcontr
      cases hcontr
    refine ⟨iff_of_false hapi' (fun hclaim => hc (hbridge.mpr hclaim)), ?_⟩
    rw [if_neg hapi']
    simp only [buildSQL]
    rw [if_neg hc]
    by_cases hw : 0 < (buildSQLCond q).length
    · rw [if_pos hw]
      by_cases hl : 0 < q.NumTraces
      · rw [if_pos hl]
        refine ⟨" WHERE " ++ (" AND ".intercalate (buildSQLCond q) ++
          (" GROUP BY trace_id ORDER BY _timestamp DESC " ++
            (" LIMIT " ++ toString q.NumTraces))), ?_⟩
        simp only [String.append_assoc]
      · rw [if_neg hl]
        refine ⟨" WHERE " ++ (" AND ".intercalate (buildSQLCond q) ++
          " GROUP BY trace_id ORDER BY _timestamp DESC "), ?_⟩
        simp only [String.append_assoc]
    · rw [if_neg hw]
      by_cases hl : 0 < q.NumTraces
      · rw [if_pos hl]
        refine ⟨" GROUP BY trace_id ORDER BY _timestamp DESC " ++
          (" LIMIT " ++ toString q.NumTraces), ?_⟩
        simp only [String.append_assoc]
      · rw [if_neg hl]
        exact ⟨" GROUP BY trace_id ORDER BY _timestamp DESC ", by
          simp only [String.append_assoc]⟩

/-- C5 witness: a query with one tag predicate selects the full span
store even though a metadata stream was offered, and a bare query the
metadata index. -/
theorem buildSQL_source_selection_witness :
    ((buildSQL "trace_id, MIN(_timestamp) AS _timestamp"
        { ServiceName := ["checkout"], OperationName := [], Tags := [("k", "v")]
          StartTimeMin := none, StartTimeMax := none, DurationMin := 0, DurationMax := 0
          NumTraces := 0, Version := "", SkipWal := false, SearchType := "" }
        SearchTraceListStream).2 = StreamApi.traceAPI ↔
      (SearchTraceListStream = "" ∨ ([("k", "v")] : List (String × String)) ≠ [] ∨
        ([] : List String) ≠ [] ∨ (0 : Int) < 0 ∨ (0 : Int) < 0))
    ∧ ∃ tail,
      (buildSQL "trace_id, MIN(_timestamp) AS _timestamp"
        { ServiceName := ["checkout"], OperationName := [], Tags := [("k", "v")]
          StartTimeMin := none, StartTimeMax := none, DurationMin := 0, DurationMax := 0
          NumTraces := 0, Version := "", SkipWal := false, SearchType := "" }
        SearchTraceListStream).1 =
        (if (buildSQL "trace_id, MIN(_timestamp) AS _timestamp"
            { ServiceName := ["checkout"], OperationName := [], Tags := [("k", "v")]
              StartTimeMin := none, StartTimeMax := none, DurationMin := 0, DurationMax := 0
              NumTraces := 0, Version := "", SkipWal := false, SearchType := "" }
            SearchTraceListStream).2 = StreamApi.traceAPI then
          "SELECT trace_id, MIN(start_time) AS _timestamp FROM default"
         else "SELECT " ++ "trace_id, MIN(_timestamp) AS _timestamp" ++ " FROM " ++
           SearchTraceListStream) ++ tail :=
  buildSQL_source_selection "trace_id, MIN(_timestamp) AS _timestamp"
    SearchTraceListStream
    { ServiceName := ["checkout"], OperationName := [], Tags := [("k", "v")]
      StartTimeMin := none, StartTimeMax := none, DurationMin := 0, DurationMax := 0
      NumTraces := 0, Version := "", SkipWal := false, SearchType := "" }

/-- C7: whenever both duration bounds are set (non-zero) and the maximum
is below the minimum, the validator rejects the query — and the
`SearchTraces` route then returns the 405 validation envelope no matter
what the backend would have answered, i.e. before any SQL is built or
sent. -/
theorem validateTraceQuery_rejects_inverted_durations (tq : HttpTraceQueryParameters)
    (h1 : tq.params.DurationMin ≠ 0) (h2 : tq.params.DurationMax ≠ 0)
    (h3 : tq.params.DurationMax < tq.params.DurationMin) :
    (validateTraceQuery tq).isSome = true
    ∧ ∀ (τ : Type)
        (assemble : String → OpenObserveResp → τ × Option JaegerStructuredError)
        (phase1 phase2 : Except BackendErr OpenObserveResp),
        SearchTracesPipeline assemble phase1 phase2 tq =
          validationErrorResponse τ ((validateTraceQuery tq).getD "") := by
  have hsome : ∃ m, validateTraceQuery tq = some m := by
    unfold validateTraceQuery
    by_cases hs : tq.traceIDs.length = 0 ∧ tq.params.ServiceName.length = 0
    · exact ⟨errServiceParameterRequired, by rw [if_pos hs]⟩
    · refine ⟨errMaxDurationGreaterThanMin, ?_⟩
      rw [if_neg hs, if_pos ⟨h1, h2, h3⟩]
  obtain ⟨m, hm⟩ := hsome
  constructor
  · rw [hm]; rfl
  · intro τ assemble phase1 phase2
    unfold SearchTracesPipeline
    rw [hm]
    rfl

/-- C7 witness: a query with `minDuration` 2ms and `maxDuration` 1ms (in
nanoseconds) is rejected. -/
theorem validateTraceQuery_rejects_inverted_durations_witness :
    (validateTraceQuery
        { params :=
            { ServiceName := ["checkout"], OperationName := [], Tags := []
              StartTimeMin := none, StartTimeMax := none
              DurationMin := 2000000, DurationMax := 1000000, NumTraces := 20
              Version := "", SkipWal := false, SearchType := "" }
          traceIDs := [] }).isSome = true
    ∧ ∀ (τ : Type)
        (assemble : String → OpenObserveResp → τ × Option JaegerStructuredError)
        (phase1 phase2 : Except BackendErr OpenObserveResp),
        SearchTracesPipeline assemble phase1 phase2
          { params :=
              { ServiceName := ["checkout"], OperationName := [], Tags := []
                StartTimeMin := none, StartTimeMax := none
                DurationMin := 2000000, DurationMax := 1000000, NumTraces := 20
                Version := "", SkipWal := false, SearchType := "" }
            traceIDs := [] } =
          validationErrorResponse τ ((validateTraceQuery
            { params :=
                { ServiceName := ["checkout"], OperationName := [], Tags := []
                  StartTimeMin := none, StartTimeMax := none
                  DurationMin := 2000000, DurationMax := 1000000, NumTraces := 20
                  Version := "", SkipWal := false, SearchType := "" }
              traceIDs := [] }).getD "") :=
  validateTraceQuery_rejects_inverted_durations
    { params :=
        { ServiceName := ["checkout"], OperationName := [], Tags := []
          StartTimeMin := none, StartTimeMax := none
          DurationMin := 2000000, DurationMax := 1000000, NumTraces := 20
          Version := "", SkipWal := false, SearchType := "" }
      traceIDs := [] }
    (by decide) (by decide) (by decide)

/-- C8: with exactly one service name the first WHERE fragment is a
single-quoted equality; with two or more it is a `service_name IN (...)`
listing exactly those names, order-preserved, comma-separated and
single-quoted. -/
theorem buildSQLCond_service_clause (q : TraceQueryParameters) :
    (∀ s, q.ServiceName = [s] →
      (buildSQLCond q).head? = some ("service_name ='" ++ s ++ "'"))
    ∧ (2 ≤ q.ServiceName.length →
      (buildSQLCond q).head? = some ("service_name IN('" ++
        String.intercalate "','" q.ServiceName ++ "')")) := by
  constructor
  · intro s hs
    have h1 : q.ServiceName.length = 1 := by rw [hs]; rfl
    simp only [buildSQLCond]
    rw [if_pos h1, hs]
    split_ifs <;> rfl
  · intro h2
    have hne1 : ¬ (q.ServiceName.length = 1) := by omega
    have hgt : 1 < q.ServiceName.length := by omega
    simp only [buildSQLCond]
    rw [if_neg hne1, if_pos hgt]
    split_ifs <;> rfl

/-- C8 witness: the theorem at `["a"]` and at `["a", "b"]`. -/
theorem buildSQLCond_service_clause_witness :
    (buildSQLCond
        { ServiceName := ["a"], OperationName := [], Tags := []
          StartTimeMin := none, StartTimeMax := none, DurationMin := 0, DurationMax := 0
          NumTraces := 0, Version := "", SkipWal := false, SearchType := "" }).head? =
      some ("service_name ='" ++ "a" ++ "'")
    ∧ (buildSQLCond
        { ServiceName := ["a", "b"], OperationName := [], Tags := []
          StartTimeMin := none, StartTimeMax := none, DurationMin := 0, DurationMax := 0
          NumTraces := 0, Version := "", SkipWal := false, SearchType := "" }).head? =
      some ("service_name IN('" ++ String.intercalate "','" ["a", "b"] ++ "')") :=
  ⟨(buildSQLCond_service_clause
      { ServiceName := ["a"], OperationName := [], Tags := []
        StartTimeMin := none, StartTimeMax := none, DurationMin := 0, DurationMax := 0
        NumTraces := 0, Version := "", SkipWal := false, SearchType := "" }).1 "a" rfl,
   (buildSQLCond_service_clause
      { ServiceName := ["a", "b"], OperationName := [], Tags := []
        StartTimeMin := none, StartTimeMax := none, DurationMin := 0, DurationMax := 0
        NumTraces := 0, Version := "", SkipWal := false, SearchType := "" }).2 (by decide)⟩

/-- C9: a record with an empty (or absent) parent-span id gets no
reference; a non-empty parent-span id synthesizes exactly one reference
at the parent trace/span pair whose type is `FOLLOWS_FROM` exactly when
the uppercased reference-type column says so, and the canonical
`CHILD_OF` in every other case (the legacy "CHILDOF", an absent column,
or an unrecognized value). -/
theorem collectOOReferences_spec (oo : OORecord) :
    (castToString (oolookup oo OOSpanFixedKey.ReferenceParentSpanId) = "" →
      collectOOReferences oo = [])
    ∧ (castToString (oolookup oo OOSpanFixedKey.ReferenceParentSpanId) ≠ "" →
      collectOOReferences oo =
        [{ refType :=
            if asciiToUpper (castToString (oolookup oo OOSpanFixedKey.ReferenceRefType)) =
                "FOLLOWS_FROM" then "FOLLOWS_FROM" else "CHILD_OF"
           traceID := castToString (oolookup oo OOSpanFixedKey.ReferenceParentTraceId)
           spanID := castToString (oolookup oo OOSpanFixedKey.ReferenceParentSpanId) }]) := by
  have hr : ∀ rt0 : String,
      (if rt0 = "CHILDOF" then "CHILD_OF"
       else if rt0 = "FOLLOWS_FROM" then "FOLLOWS_FROM" else "CHILD_OF") =
      (if rt0 = "FOLLOWS_FROM" then "FOLLOWS_FROM" else "CHILD_OF") := by
    intro rt0
    by_cases hA : rt0 = "CHILDOF"
    · subst hA
      rw [if_pos rfl, if_neg (by decide)]
    · rw [if_neg hA]
  constructor
  · intro h
    simp only [collectOOReferences]
    rw [if_pos ((string_length_eq_zero_iff _).mpr h)]
  · intro h
    simp only [collectOOReferences]
    rw [if_neg (fun hl => h ((string_length_eq_zero_iff _).mp hl)), hr]

/-- A record with a parent span id and the legacy "ChildOf" spelling. -/
def childofRecord : OORecord :=
  [("reference_parent_span_id", OOVal.vstr "p1"),
   ("reference_parent_trace_id", OOVal.vstr "t1"),
   ("reference_ref_type", OOVal.vstr "ChildOf")]

/-- C9 witness: the theorem at the legacy-spelling record. -/
theorem collectOOReferences_spec_witness :
    collectOOReferences childofRecord =
      [{ refType :=
          if asciiToUpper (castToString (oolookup childofRecord OOSpanFixedKey.ReferenceRefType)) =
              "FOLLOWS_FROM" then "FOLLOWS_FROM" else "CHILD_OF"
         traceID := castToString (oolookup childofRecord OOSpanFixedKey.ReferenceParentTraceId)
         spanID := castToString (oolookup childofRecord OOSpanFixedKey.ReferenceParentSpanId) }] :=
  (collectOOReferences_spec childofRecord).2 (by decide)

/-- All sixteen fixed column names. -/
def spanFixedKeyList : List String :=
  ["service_name", "start_time", "end_time", "_timestamp", "trace_id", "span_id",
   "duration", "flags", "operation_name", "span_kind", "span_status", "error",
   "reference_parent_span_id", "reference_parent_trace_id", "reference_ref_type",
   "events"]

/-- C10: the process-tag classification pattern (compiled from the empty
regular expression) matches every column name; consequently every span
tag an assembled span carries is one of the synthesized `span.kind`,
`otel.status_code` and `error` tags (no application-defined column ever
becomes a span tag), and every non-fixed-key column of the record —
in particular everything other than `span_kind`, `span_status` and
`events` among the surviving columns — lands in the process-level tag
list. -/
theorem span_tag_routing (oo : OORecord) :
    (∀ k, DbModelProcessTagsRulesReg_MatchString k = true)
    ∧ (∀ kv ∈ (transOOSpanToDbModelSpan oo).tags,
        kv.key = "span.kind" ∨ kv.key = "otel.status_code" ∨ kv.key = "error")
    ∧ (∀ p ∈ oo, ¬ (p.1 ∈ spanFixedKeyList) →
        ({ key := p.1, type := "string", value := p.2 } : DbKeyValue) ∈
          (transOOSpanToDbModelSpan oo).processTags) := by
  refine ⟨fun _ => rfl, ?_, ?_⟩
  · intro kv h
    have e : (transOOSpanToDbModelSpan oo).tags = collectOOTags (trimSpanFixedKey oo) := rfl
    rw [e] at h
    exact collectOOTags_keys _ kv h
  · intro p hp hnot
    have e : (transOOSpanToDbModelSpan oo).processTags =
        collectOOProcessTags (trimSpanFixedKey oo) := rfl
    rw [e, collectOOProcessTags_eq_map]
    have hmem : p ∈ trimSpanFixedKey oo := by
      have hlen : ¬ (oo.length = 0) := by
        intro h0
        rw [List.length_eq_zero] at h0
        subst h0
        simp at hp
      unfold trimSpanFixedKey
      rw [if_neg hlen, List.mem_filter]
      refine ⟨hp, ?_⟩
      rw [decide_eq_true_eq]
      intro hor
      apply hnot
      simp only [spanFixedKeyList, List.mem_cons, List.not_mem_nil, or_false]
      rcases hor with h | h | h | h | h | h | h | h | h <;> simp [h, OOSpanFixedKey]
    exact List.mem_map_of_mem _ hmem

/-- A concrete record with one application-defined column. -/
def routingRecord : OORecord :=
  [("service_name", OOVal.vstr "checkout"), ("span_status", OOVal.vstr "ERROR"),
   ("http.method", OOVal.vstr "GET")]

/-- C10 witness: the routing theorem at a concrete record. -/
theorem span_tag_routing_witness :
    (∀ k, DbModelProcessTagsRulesReg_MatchString k = true)
    ∧ (∀ kv ∈ (transOOSpanToDbModelSpan routingRecord).tags,
        kv.key = "span.kind" ∨ kv.key = "otel.status_code" ∨ kv.key = "error")
    ∧ (∀ p ∈ routingRecord, ¬ (p.1 ∈ spanFixedKeyList) →
        ({ key := p.1, type := "string", value := p.2 } : DbKeyValue) ∈
          (transOOSpanToDbModelSpan routingRecord).processTags) :=
  span_tag_routing routingRecord

end OOJaeger
